import Mathlib

/-!
Verification of the ISSP programmer (issp.py, issp_parser.py, intelhex.py).

The Python source is shallowly embedded: the hardware-facing primitives are
modelled as pure functions that return the sequence of pin events they would
perform, the flash orchestration functions (`program`, `verify`, `patch`)
return a result together with the sequence of hardware operations they issue,
and the offline tools (`parse`, `read_hex_file`) are modelled as pure
functions on character and byte lists.  Machine integers are `Nat` (all
values involved are unsigned bytes or small indices); fallible code returns
`Option` or `Except`.
-/

namespace Issp

/-- A pin-level event on the SDATA/SCLK lines, as performed by the viper
primitives in issp.py: setting the data line, raising or lowering the clock,
switching the data line direction, and starting the wait-and-poll timer. -/
inductive Ev where
  | setData (b : Nat)
  | clkHigh
  | clkLow
  | dataIn
  | dataOut
  | timerStart
deriving DecidableEq, Repr

/-- `_drive_clock(cycles)` from issp.py: `while cycles > 0: sclk(1); sclk(0)`. -/
def drive_clock : Nat → List Ev
  | 0 => []
  | n + 1 => Ev.clkHigh :: Ev.clkLow :: drive_clock n

/-- One descending shift loop from `_write_op` / `_read_op` in issp.py:
`i = w-1; while i >= 0: sdata((x >> i) & 1); sclk(1); sclk(0); i -= 1`. -/
def shift_field (x : Nat) : Nat → List Ev
  | 0 => []
  | i + 1 => Ev.setData ((x >>> i) &&& 1) :: Ev.clkHigh :: Ev.clkLow :: shift_field x i

/-- `_write_op(issp_op, address, value)` from issp.py: shift 3 opcode bits,
8 address bits and 8 value bits MSB first, then `sdata(1)` followed by
3 clock pulses. -/
def write_op (issp_op address value : Nat) : List Ev :=
  shift_field issp_op 3 ++ shift_field address 8 ++ shift_field value 8
    ++ Ev.setData 1 :: drive_clock 3

/-- `write_noop()` from issp.py: `sdata(0)` then 22 clock pulses. -/
def write_noop : List Ev :=
  Ev.setData 0 :: drive_clock 22

/-- Spec-side rendering of one shifted bit: set data, pulse clock high then
low (worded from the spec, for comparison with the source translation). -/
def specShiftBit (b : Nat) : List Ev :=
  [Ev.setData b, Ev.clkHigh, Ev.clkLow]

/-- Spec-side rendering of the `w`-bit field of `x`, MSB first, as 0/1 bits. -/
def specBitsMSB (w x : Nat) : List Nat :=
  (List.range w).reverse.map fun i => if x.testBit i then 1 else 0

/-- Spec-side rendering of `n` clock pulses (high then low, `n` times). -/
def specPulses (n : Nat) : List Ev :=
  (List.range n).flatMap fun _ => [Ev.clkHigh, Ev.clkLow]

/-- Spec-side rendering of the write operation: the 3 opcode bits, then the
8 address bits, then the 8 value bits, each MSB first and each shifted as
set-data-then-pulse; terminated by driving data high and 3 extra pulses. -/
def specWriteOp (issp_op address value : Nat) : List Ev :=
  (specBitsMSB 3 issp_op ++ specBitsMSB 8 address ++ specBitsMSB 8 value).flatMap specShiftBit
    ++ Ev.setData 1 :: specPulses 3

/-- Spec-side rendering of the no-op: drive data low, 22 clock pulses. -/
def specWriteNoop : List Ev :=
  Ev.setData 0 :: specPulses 22

lemma shiftRight_and_one (x i : Nat) :
    (x >>> i) &&& 1 = if x.testBit i then 1 else 0 := by
  rw [Nat.and_one_is_mod, Nat.shiftRight_eq_div_pow, Nat.testBit_to_div_mod]
  rcases Nat.mod_two_eq_zero_or_one (x / 2 ^ i) with h | h <;> simp [h]

lemma shift_field_eq_spec (x w : Nat) :
    shift_field x w = (specBitsMSB w x).flatMap specShiftBit := by
  induction w with
  | zero => rfl
  | succ n ih =>
    have hs : specBitsMSB (n + 1) x = (if x.testBit n then 1 else 0) :: specBitsMSB n x := by
      simp [specBitsMSB, List.range_succ]
    rw [hs, List.flatMap_cons, ← ih, shift_field, shiftRight_and_one]
    rfl

lemma drive_clock_add (a b : Nat) :
    drive_clock (a + b) = drive_clock a ++ drive_clock b := by
  induction a with
  | zero => simp [drive_clock]
  | succ n ih => rw [Nat.succ_add, drive_clock, ih]; rfl

lemma drive_clock_eq_specPulses (n : Nat) :
    drive_clock n = specPulses n := by
  induction n with
  | zero => rfl
  | succ m ih =>
    rw [specPulses, List.range_succ, List.flatMap_append, ← specPulses, ← ih]
    rw [show m + 1 = m + 1 from rfl, drive_clock_add]
    rfl

end Issp

/-- C1: for every 3-bit opcode, 8-bit address and 8-bit value, `_write_op`
shifts onto the data line, MSB first, exactly the 3 opcode bits, then the 8
address bits, then the 8 value bits — setting data then pulsing the clock
high-then-low once per bit — and terminates by driving data high and issuing
exactly 3 additional clock pulses; and `write_noop` drives data low and
issues exactly 22 clock pulses. -/
theorem c1_write_op_and_noop_traces (issp_op address value : Nat)
    (hop : issp_op < 8) (haddr : address < 256) (hval : value < 256) :
    Issp.write_op issp_op address value = Issp.specWriteOp issp_op address value ∧
    Issp.write_noop = Issp.specWriteNoop := by
  constructor
  · rw [Issp.write_op, Issp.specWriteOp, Issp.shift_field_eq_spec, Issp.shift_field_eq_spec,
      Issp.shift_field_eq_spec, Issp.drive_clock_eq_specPulses]
    simp [List.flatMap_append]
  · rw [Issp.write_noop, Issp.specWriteNoop, Issp.drive_clock_eq_specPulses]

/-- Witness for C1 at opcode 4 (write memory), address 0xF8, value 0x3A. -/
theorem c1_write_op_and_noop_traces_witness :
    (4 : Nat) < 8 ∧ (0xF8 : Nat) < 256 ∧ (0x3A : Nat) < 256 ∧
    (Issp.write_op 4 0xF8 0x3A = Issp.specWriteOp 4 0xF8 0x3A ∧
      Issp.write_noop = Issp.specWriteNoop) :=
  ⟨by decide, by decide, by decide,
    c1_write_op_and_noop_traces 4 0xF8 0x3A (by decide) (by decide) (by decide)⟩

namespace Issp

/-- A decoded bytecode command: a no-op (one zero byte) or an operation
triple (opcode, address, value). -/
inductive Cmd where
  | noop
  | op (opcode address value : Nat)
deriving DecidableEq, Repr

/-- `_write_vector(ops)` from issp.py: walk the byte sequence; a zero byte
dispatches `write_noop()` and advances by 1; a nonzero byte must start a full
3-byte triple (`assert i + 3 <= len_ops`) dispatched as `_write_op`, advancing
by 3.  A failing assert (truncated triple) is modelled as `none`; otherwise
the list of dispatched commands is returned. -/
def write_vector : List Nat → Option (List Cmd)
  | [] => some []
  | 0 :: rest => (write_vector rest).map (Cmd.noop :: ·)
  | (b + 1) :: a :: v :: rest2 => (write_vector rest2).map (Cmd.op (b + 1) a v :: ·)
  | [_ + 1] => none
  | [_ + 1, _] => none

end Issp

/-- C2: the bytecode interpreter `_write_vector` dispatches a no-op for a zero
byte (advancing by 1), dispatches one (opcode, address, value) operation for a
nonzero byte followed by two more bytes (advancing by 3), and fails on a
nonzero byte whose 3-byte triple would extend past the end of the sequence. -/
theorem c2_write_vector_dispatch (b a v : Nat) (rest : List Nat) (hb : b ≠ 0) :
    Issp.write_vector (0 :: rest) = (Issp.write_vector rest).map (Issp.Cmd.noop :: ·) ∧
    Issp.write_vector (b :: a :: v :: rest) =
      (Issp.write_vector rest).map (Issp.Cmd.op b a v :: ·) ∧
    Issp.write_vector [b] = none ∧
    Issp.write_vector [b, a] = none := by
  cases b with
  | zero => exact absurd rfl hb
  | succ n => exact ⟨rfl, rfl, rfl, rfl⟩

/-- Witness for C2 at the triple (4, 0xF8, 0x3A) and tail [0]. -/
theorem c2_write_vector_dispatch_witness :
    (4 : Nat) ≠ 0 ∧
    (Issp.write_vector (0 :: [0]) = (Issp.write_vector [0]).map (Issp.Cmd.noop :: ·) ∧
     Issp.write_vector (4 :: 0xF8 :: 0x3A :: [0]) =
       (Issp.write_vector [0]).map (Issp.Cmd.op 4 0xF8 0x3A :: ·) ∧
     Issp.write_vector [4] = none ∧
     Issp.write_vector [4, 0xF8] = none) :=
  ⟨by decide, c2_write_vector_dispatch 4 0xF8 0x3A [0] (by decide)⟩

namespace Issp

/-- `_VECTOR_INIT_1` from issp.py, with the byte-string literal decoded. -/
def VECTOR_INIT_1 : List Nat :=
  [0, 0, 0, 0, 0, 6, 247, 0, 6, 246, 0, 4, 248, 58, 4, 249, 3, 6, 245, 0, 6, 244, 3,
   4, 251, 128, 6, 249, 48, 6, 250, 64, 6, 240, 9, 6, 248, 0, 6, 255, 18]

/-- `_VECTOR_INIT_2` from issp.py. -/
def VECTOR_INIT_2 : List Nat :=
  [6, 247, 0, 6, 246, 0, 4, 248, 58, 4, 249, 3, 6, 245, 0, 6, 244, 3, 4, 251, 128,
   6, 249, 48, 6, 250, 64, 4, 250, 1, 6, 240, 6, 6, 248, 0, 6, 255, 18]

/-- `_VECTOR_INIT_3_3V` from issp.py. -/
def VECTOR_INIT_3_3V : List Nat :=
  [6, 247, 0, 6, 244, 3, 6, 245, 0, 6, 246, 8, 6, 248, 81, 6, 249, 248, 6, 250, 48,
   6, 255, 18, 0, 6, 247, 0, 6, 244, 3, 6, 245, 0, 6, 246, 8, 6, 248, 96, 6, 249, 234,
   6, 250, 48, 6, 247, 16, 6, 255, 18, 0, 6, 247, 0, 6, 244, 3, 6, 245, 0, 6, 246, 8,
   6, 248, 81, 6, 249, 249, 6, 250, 48, 6, 255, 18, 0, 6, 247, 0, 6, 244, 3, 6, 245, 0,
   6, 246, 8, 6, 248, 96, 6, 249, 232, 6, 250, 48, 6, 247, 16, 6, 255, 18, 0]

/-- `_VECTOR_INIT_3_5V` from issp.py. -/
def VECTOR_INIT_3_5V : List Nat :=
  [6, 247, 0, 6, 244, 3, 6, 245, 0, 6, 246, 8, 6, 248, 81, 6, 249, 252, 6, 250, 48,
   6, 255, 18, 0, 6, 247, 0, 6, 244, 3, 6, 245, 0, 6, 246, 8, 6, 248, 96, 6, 249, 234,
   6, 250, 48, 6, 247, 16, 6, 255, 18, 0, 6, 247, 0, 6, 244, 3, 6, 245, 0, 6, 246, 8,
   6, 248, 81, 6, 249, 253, 6, 250, 48, 6, 255, 18, 0, 6, 247, 0, 6, 244, 3, 6, 245, 0,
   6, 246, 8, 6, 248, 96, 6, 249, 232, 6, 250, 48, 6, 247, 16, 6, 255, 18, 0]

/-- `_VECTOR_ID_SETUP` from issp.py. -/
def VECTOR_ID_SETUP : List Nat :=
  [6, 247, 16, 6, 224, 2, 6, 247, 0, 6, 246, 0, 4, 248, 58, 4, 249, 3, 6, 245, 0,
   6, 244, 3, 4, 251, 128, 6, 249, 48, 6, 250, 64, 4, 250, 0, 6, 240, 6, 6, 248, 0,
   6, 255, 18]

/-- `_VECTOR_BULK_ERASE` from issp.py. -/
def VECTOR_BULK_ERASE : List Nat :=
  [4, 252, 21, 4, 254, 86, 6, 247, 0, 6, 246, 0, 4, 248, 58, 4, 249, 3, 6, 245, 0,
   6, 244, 3, 4, 251, 128, 6, 249, 48, 6, 250, 64, 6, 240, 5, 6, 248, 0, 6, 255, 18]

/-- `_VECTOR_PROGRAM_BLOCK` from issp.py. -/
def VECTOR_PROGRAM_BLOCK : List Nat :=
  [4, 252, 84, 4, 254, 86, 6, 247, 0, 6, 246, 0, 4, 248, 58, 4, 249, 3, 6, 245, 0,
   6, 244, 3, 4, 251, 128, 6, 249, 48, 6, 250, 64, 6, 240, 2, 6, 248, 0, 6, 255, 18]

/-- `_VECTOR_VERIFY_SETUP` from issp.py. -/
def VECTOR_VERIFY_SETUP : List Nat :=
  [6, 247, 0, 6, 246, 0, 4, 248, 58, 4, 249, 3, 6, 245, 0, 6, 244, 3, 4, 251, 128,
   6, 249, 48, 6, 250, 64, 6, 240, 1, 6, 248, 0, 6, 255, 18]

/-- `_VECTOR_ERASE_BLOCK` from issp.py. -/
def VECTOR_ERASE_BLOCK : List Nat :=
  [4, 252, 84, 4, 254, 86, 6, 247, 0, 6, 246, 0, 4, 248, 58, 4, 249, 3, 6, 245, 0,
   6, 244, 3, 6, 249, 48, 6, 250, 64, 6, 240, 3, 6, 248, 0, 6, 255, 18]

/-- A bytecode byte sequence is well formed when the interpreter's walk
(zero byte advances 1, nonzero byte starts a 3-byte triple) never overruns
the end, and every decoded triple carries a write opcode (4 = write memory,
6 = write register). -/
def vectorWellFormed (bs : List Nat) : Bool :=
  match write_vector bs with
  | none => false
  | some cmds =>
    cmds.all fun c =>
      match c with
      | Cmd.noop => true
      | Cmd.op opcode _ _ => opcode == 4 || opcode == 6

end Issp

/-- C10: every embedded vector constant is well-formed bytecode: walking it
with the interpreter's rule never overruns the end, and every triple's opcode
byte is a write opcode (4 or 6), so interpreting any embedded vector never
hits the malformed-bytecode check and never needs a read-style dispatch. -/
theorem c10_vectors_well_formed :
    Issp.vectorWellFormed Issp.VECTOR_INIT_1 = true ∧
    Issp.vectorWellFormed Issp.VECTOR_INIT_2 = true ∧
    Issp.vectorWellFormed Issp.VECTOR_INIT_3_3V = true ∧
    Issp.vectorWellFormed Issp.VECTOR_INIT_3_5V = true ∧
    Issp.vectorWellFormed Issp.VECTOR_ID_SETUP = true ∧
    Issp.vectorWellFormed Issp.VECTOR_BULK_ERASE = true ∧
    Issp.vectorWellFormed Issp.VECTOR_PROGRAM_BLOCK = true ∧
    Issp.vectorWellFormed Issp.VECTOR_VERIFY_SETUP = true ∧
    Issp.vectorWellFormed Issp.VECTOR_ERASE_BLOCK = true := by
  decide

namespace Issp

/-- `_WAIT_AND_POLL_TIMEOUT_US` from issp.py. -/
def WAIT_AND_POLL_TIMEOUT_US : Nat := 100000

/-- Environment model of the SDATA line as seen by a pulse measurement:
`riseTime` is the time in microseconds until the line first goes high
(`none` when it never rises), and `highTime` is how long it then stays high
(`none` when it never falls back low). -/
structure Line where
  riseTime : Option Nat
  highTime : Option Nat

/-- Environment model of MicroPython's `machine.time_pulse_us(pin, 1, t)`,
from its documented semantics: returns -2 when the initial wait for the line
to go high exceeds the timeout, -1 when the line went high but the wait for
it to go low exceeds the timeout, and the measured pulse width otherwise. -/
def time_pulse_us (line : Line) (timeout : Nat) : Int :=
  match line.riseTime with
  | none => -2
  | some r =>
    if timeout < r then -2
    else
      match line.highTime with
      | none => -1
      | some h => if timeout < h then -1 else (h : Int)

/-- Result of `wait_and_poll()`: timed out waiting for SDATA to go high
(rising edge), timed out waiting for SDATA to go low (falling edge), or
success. -/
inductive WapResult where
  | riseTimeout
  | fallTimeout
  | ok
deriving DecidableEq, Repr

/-- `wait_and_poll()` from issp.py: switch SDATA to input, start the timer
that generates the first clock pulse, measure the pulse with a 100 ms bound;
-2 raises the go-high timeout, -1 the go-low timeout; on success `sdata(0)`,
switch SDATA back to output, and drive 40 clock pulses. -/
def wait_and_poll (line : Line) : WapResult × List Ev :=
  let pre := [Ev.dataIn, Ev.timerStart]
  let ret := time_pulse_us line WAIT_AND_POLL_TIMEOUT_US
  if ret = -2 then (WapResult.riseTimeout, pre)
  else if ret = -1 then (WapResult.fallTimeout, pre)
  else (WapResult.ok, pre ++ Ev.setData 0 :: Ev.dataOut :: drive_clock 40)

/-- The line rises within the wait-and-poll bound. -/
def risesWithinBound (line : Line) : Prop :=
  ∃ r, line.riseTime = some r ∧ r ≤ WAIT_AND_POLL_TIMEOUT_US

/-- Having risen, the line falls back low within the wait-and-poll bound. -/
def fallsWithinBound (line : Line) : Prop :=
  ∃ h, line.highTime = some h ∧ h ≤ WAIT_AND_POLL_TIMEOUT_US

end Issp

/-- C6: `wait_and_poll` fails with the timeout naming the rising edge exactly
when the data line does not rise within the 100 ms bound, fails with the
timeout naming the falling edge exactly when the line rises within the bound
but does not fall within it, and on success drives the data line low,
switches it back to output mode, and issues exactly 40 trailing clock
pulses. -/
theorem c6_wait_and_poll_behavior (line : Issp.Line) :
    ((Issp.wait_and_poll line).1 = Issp.WapResult.riseTimeout ↔
      ¬ Issp.risesWithinBound line) ∧
    ((Issp.wait_and_poll line).1 = Issp.WapResult.fallTimeout ↔
      (Issp.risesWithinBound line ∧ ¬ Issp.fallsWithinBound line)) ∧
    ((Issp.wait_and_poll line).1 = Issp.WapResult.ok →
      (Issp.wait_and_poll line).2 =
        [Issp.Ev.dataIn, Issp.Ev.timerStart, Issp.Ev.setData 0, Issp.Ev.dataOut]
          ++ Issp.specPulses 40) := by
  obtain ⟨rt, ht⟩ := line
  cases rt with
  | none =>
    have hw : Issp.wait_and_poll ⟨none, ht⟩ =
        (Issp.WapResult.riseTimeout, [Issp.Ev.dataIn, Issp.Ev.timerStart]) := rfl
    rw [hw]
    refine ⟨iff_of_true rfl ?_, iff_of_false (by decide) ?_, fun hc => absurd hc (by decide)⟩
    · rintro ⟨x, hx, -⟩
      exact Option.noConfusion hx
    · rintro ⟨⟨x, hx, -⟩, -⟩
      exact Option.noConfusion hx
  | some r =>
    by_cases hr : Issp.WAIT_AND_POLL_TIMEOUT_US < r
    · have hret : Issp.time_pulse_us ⟨some r, ht⟩ Issp.WAIT_AND_POLL_TIMEOUT_US = -2 := by
        simp [Issp.time_pulse_us, if_pos hr]
      have hw : Issp.wait_and_poll ⟨some r, ht⟩ =
          (Issp.WapResult.riseTimeout, [Issp.Ev.dataIn, Issp.Ev.timerStart]) := by
        unfold Issp.wait_and_poll
        rw [hret]
        rfl
      rw [hw]
      refine ⟨iff_of_true rfl ?_, iff_of_false (by decide) ?_, fun hc => absurd hc (by decide)⟩
      · rintro ⟨x, hx, hle⟩
        injection hx with hx
        omega
      · rintro ⟨⟨x, hx, hle⟩, -⟩
        injection hx with hx
        omega
    · cases ht with
      | none =>
        have hret : Issp.time_pulse_us ⟨some r, none⟩ Issp.WAIT_AND_POLL_TIMEOUT_US = -1 := by
          simp [Issp.time_pulse_us, if_neg hr]
        have hw : Issp.wait_and_poll ⟨some r, none⟩ =
            (Issp.WapResult.fallTimeout, [Issp.Ev.dataIn, Issp.Ev.timerStart]) := by
          unfold Issp.wait_and_poll
          rw [hret]
          rfl
        rw [hw]
        refine ⟨iff_of_false (by decide) (fun hc => hc ⟨r, rfl, by omega⟩),
          iff_of_true rfl ⟨⟨r, rfl, by omega⟩, ?_⟩, fun hc => absurd hc (by decide)⟩
        rintro ⟨x, hx, -⟩
        exact Option.noConfusion hx
      | some h =>
        by_cases hh : Issp.WAIT_AND_POLL_TIMEOUT_US < h
        · have hret : Issp.time_pulse_us ⟨some r, some h⟩
              Issp.WAIT_AND_POLL_TIMEOUT_US = -1 := by
            simp [Issp.time_pulse_us, if_neg hr, if_pos hh]
          have hw : Issp.wait_and_poll ⟨some r, some h⟩ =
              (Issp.WapResult.fallTimeout, [Issp.Ev.dataIn, Issp.Ev.timerStart]) := by
            unfold Issp.wait_and_poll
            rw [hret]
            rfl
          rw [hw]
          refine ⟨iff_of_false (by decide) (fun hc => hc ⟨r, rfl, by omega⟩),
            iff_of_true rfl ⟨⟨r, rfl, by omega⟩, ?_⟩, fun hc => absurd hc (by decide)⟩
          rintro ⟨x, hx, hle⟩
          injection hx with hx
          omega
        · have hret : Issp.time_pulse_us ⟨some r, some h⟩
              Issp.WAIT_AND_POLL_TIMEOUT_US = (h : Int) := by
            simp [Issp.time_pulse_us, if_neg hr, if_neg hh]
          have hw : Issp.wait_and_poll ⟨some r, some h⟩ =
              (Issp.WapResult.ok, [Issp.Ev.dataIn, Issp.Ev.timerStart]
                ++ Issp.Ev.setData 0 :: Issp.Ev.dataOut :: Issp.drive_clock 40) := by
            unfold Issp.wait_and_poll
            rw [hret, if_neg (by omega), if_neg (by omega)]
          rw [hw]
          refine ⟨iff_of_false (by decide) (fun hc => hc ⟨r, rfl, by omega⟩),
            iff_of_false (by decide) (fun hc => hc.2 ⟨h, rfl, by omega⟩), fun _ => ?_⟩
          rw [Issp.drive_clock_eq_specPulses]
          rfl

namespace Issp

/-- Which official vector constant an orchestrator step sends. -/
inductive VecKind where
  | bulkErase
  | programBlock
  | verifySetup
  | eraseBlock
deriving DecidableEq, Repr

/-- A hardware operation performed by the flash orchestration functions:
a register write, a memory write, a memory read, sending a vector, or a
wait-and-poll. -/
inductive HwEv where
  | writeReg (address value : Nat)
  | writeMem (address value : Nat)
  | readMem (address : Nat)
  | vec (v : VecKind)
  | waitPoll
deriving DecidableEq, Repr

/-- `write_register(address, value)` from issp.py, at this level one
register-write operation. -/
def write_register (address value : Nat) : List HwEv :=
  [HwEv.writeReg address value]

/-- `write_memory(address, value)` from issp.py. -/
def write_memory (address value : Nat) : List HwEv :=
  [HwEv.writeMem address value]

/-- `set_bank_num(bank)` from issp.py: three register writes — enter
bank-select mode, write the bank number, exit bank-select mode. -/
def set_bank_num (bank : Nat) : List HwEv :=
  write_register 0xF7 0x10 ++ write_register 0xFA bank ++ write_register 0xF7 0x00

/-- `set_block_num(block)` from issp.py. -/
def set_block_num (block : Nat) : List HwEv :=
  write_memory 0xFA block

/-- `bulk_erase()` from issp.py: send the bulk-erase vector, wait-and-poll. -/
def bulk_erase : List HwEv :=
  [HwEv.vec VecKind.bulkErase, HwEv.waitPoll]

/-- `program_block()` from issp.py. -/
def program_block : List HwEv :=
  [HwEv.vec VecKind.programBlock, HwEv.waitPoll]

/-- `verify_setup()` from issp.py. -/
def verify_setup : List HwEv :=
  [HwEv.vec VecKind.verifySetup, HwEv.waitPoll]

/-- `erase_block()` from issp.py. -/
def erase_block : List HwEv :=
  [HwEv.vec VecKind.eraseBlock, HwEv.waitPoll]

/-- The `data` argument of `program` / `verify` / `patch`: a bytes-like,
modelled as its length together with random access (`data[i]`). -/
structure Image where
  len : Nat
  byteAt : Nat → Nat

/-- Environment model of the target as the orchestrators observe it:
`flash bank block i` is what `read_memory(0x80 | i)` returns after the
verify-setup vector has loaded block `block` of bank `bank`, and the three
status fields are what `read_memory(0xF8)` returns after the verify-setup,
erase-block and program-block vectors respectively. -/
structure Target where
  flash : Nat → Nat → Nat → Nat
  readStatus : Nat → Nat → Nat
  eraseStatus : Nat → Nat → Nat
  programStatus : Nat → Nat → Nat

/-- `_BYTE_PER_BLOCK * _BLOCK_PER_BANK` from issp.py. -/
def BYTE_PER_BANK : Nat := 64 * 128

/-- Result of `program`: ok, or the `assert remainder == 0` failure. -/
inductive ProgResult where
  | ok
  | invalidSize
deriving DecidableEq, Repr

/-- `program(data)` from issp.py: check the image length is a multiple of
8192, bulk-erase, then per bank (`set_bank_num`) and per block write the 64
staging bytes at addresses `0x80 | i`, select the block and send the
program-block vector.  The running source index `i` equals
`(bank * 128 + block) * 64 + byte` throughout. -/
def program (img : Image) : ProgResult × List HwEv :=
  if img.len % BYTE_PER_BANK ≠ 0 then (ProgResult.invalidSize, [])
  else
    (ProgResult.ok,
      bulk_erase ++ (List.range (img.len / BYTE_PER_BANK)).flatMap fun i_bank =>
        set_bank_num i_bank ++ (List.range 128).flatMap fun i_block =>
          ((List.range 64).flatMap fun i_byte =>
            write_memory (0b10000000 ||| i_byte)
              (img.byteAt ((i_bank * 128 + i_block) * 64 + i_byte)))
          ++ set_block_num i_block ++ program_block)

/-- Result of `verify`: ok, the size assert failure, or the first mismatch
with its bank, block and byte coordinates. -/
inductive VerifyResult where
  | ok
  | invalidSize
  | mismatch (bank block byte : Nat)
deriving DecidableEq, Repr

/-- The shared inner byte loop of `verify` and `patch`: compare
`data[(bank*128+block)*64 + i]` with `read_memory(0x80 | i)` for each `i` in
the list, stopping at the first mismatch; returns the index of the first
mismatching byte (if any) and the reads performed. -/
def scanBlock (img : Image) (t : Target) (i_bank i_block : Nat) :
    List Nat → Option Nat × List HwEv
  | [] => (none, [])
  | i :: rest =>
    if img.byteAt ((i_bank * 128 + i_block) * 64 + i) ≠ t.flash i_bank i_block i then
      (some i, [HwEv.readMem (0b10000000 ||| i)])
    else
      let r := scanBlock img t i_bank i_block rest
      (r.1, HwEv.readMem (0b10000000 ||| i) :: r.2)

/-- The block loop of `verify` for one bank: select each block, send the
verify-setup vector, and compare its 64 bytes; stops at (and reports) the
first mismatching block and byte. -/
def verifyBlocks (img : Image) (t : Target) (i_bank : Nat) :
    List Nat → Option (Nat × Nat) × List HwEv
  | [] => (none, [])
  | i_block :: rest =>
    let pre := set_block_num i_block ++ verify_setup
    match scanBlock img t i_bank i_block (List.range 64) with
    | (some i_byte, tr) => (some (i_block, i_byte), pre ++ tr)
    | (none, tr) =>
      let r := verifyBlocks img t i_bank rest
      (r.1, pre ++ tr ++ r.2)

/-- The bank loop of `verify`: select each bank, run its 128 blocks. -/
def verifyBanks (img : Image) (t : Target) :
    List Nat → Option (Nat × Nat × Nat) × List HwEv
  | [] => (none, [])
  | i_bank :: rest =>
    match verifyBlocks img t i_bank (List.range 128) with
    | (some (i_block, i_byte), tr) =>
      (some (i_bank, i_block, i_byte), set_bank_num i_bank ++ tr)
    | (none, tr) =>
      let r := verifyBanks img t rest
      (r.1, set_bank_num i_bank ++ tr ++ r.2)

/-- `verify(data)` from issp.py: check the image length is a multiple of
8192, then per bank and per block select the block, send the verify-setup
vector and compare the 64 read-back bytes; the first mismatch raises
`RuntimeError('Verify failed at bank .. block .. byte ..')`, which aborts
the whole procedure. -/
def verify (img : Image) (t : Target) : VerifyResult × List HwEv :=
  if img.len % BYTE_PER_BANK ≠ 0 then (VerifyResult.invalidSize, [])
  else
    match verifyBanks img t (List.range (img.len / BYTE_PER_BANK)) with
    | (some (i_bank, i_block, i_byte), tr) =>
      (VerifyResult.mismatch i_bank i_block i_byte, tr)
    | (none, tr) => (VerifyResult.ok, tr)

end Issp

namespace Issp

/-- Result of `patch`: ok, the size assert failure, or a nonzero status code
read at 0xF8 after the read, erase or program step of some block. -/
inductive PatchResult where
  | ok
  | invalidSize
  | readFail (bank block code : Nat)
  | eraseFail (bank block code : Nat)
  | programFail (bank block code : Nat)
deriving DecidableEq, Repr

/-- One block of `patch(data)` from issp.py: select the block, send the
verify-setup vector, read the status at 0xF8 (nonzero aborts); compare the 64
bytes to the image and skip the block when they all match; otherwise select
the block again, erase it (status check), write the 64 staging bytes,
select it again and program it (status check).  Returns `none` to continue
with the next block, or the abort result. -/
def patchBlock (img : Image) (t : Target) (i_bank i_block : Nat) :
    Option PatchResult × List HwEv :=
  let pre := set_block_num i_block ++ verify_setup ++ [HwEv.readMem 0xF8]
  let return_code := t.readStatus i_bank i_block
  if return_code ≠ 0 then (some (PatchResult.readFail i_bank i_block return_code), pre)
  else
    match scanBlock img t i_bank i_block (List.range 64) with
    | (none, tr) => (none, pre ++ tr)
    | (some _, tr) =>
      let tr2 := set_block_num i_block ++ erase_block ++ [HwEv.readMem 0xF8]
      let erase_code := t.eraseStatus i_bank i_block
      if erase_code ≠ 0 then
        (some (PatchResult.eraseFail i_bank i_block erase_code), pre ++ tr ++ tr2)
      else
        let tr3 := (List.range 64).flatMap fun i_byte =>
          write_memory (0b10000000 ||| i_byte)
            (img.byteAt ((i_bank * 128 + i_block) * 64 + i_byte))
        let tr4 := set_block_num i_block ++ program_block ++ [HwEv.readMem 0xF8]
        let prog_code := t.programStatus i_bank i_block
        if prog_code ≠ 0 then
          (some (PatchResult.programFail i_bank i_block prog_code),
            pre ++ tr ++ tr2 ++ tr3 ++ tr4)
        else (none, pre ++ tr ++ tr2 ++ tr3 ++ tr4)

/-- The block loop of `patch` for one bank. -/
def patchBlocks (img : Image) (t : Target) (i_bank : Nat) :
    List Nat → Option PatchResult × List HwEv
  | [] => (none, [])
  | i_block :: rest =>
    match patchBlock img t i_bank i_block with
    | (some r, tr) => (some r, tr)
    | (none, tr) =>
      let r := patchBlocks img t i_bank rest
      (r.1, tr ++ r.2)

/-- The bank loop of `patch`. -/
def patchBanks (img : Image) (t : Target) :
    List Nat → Option PatchResult × List HwEv
  | [] => (none, [])
  | i_bank :: rest =>
    match patchBlocks img t i_bank (List.range 128) with
    | (some r, tr) => (some r, set_bank_num i_bank ++ tr)
    | (none, tr) =>
      let r := patchBanks img t rest
      (r.1, set_bank_num i_bank ++ tr ++ r.2)

/-- `patch(data)` from issp.py: check the image length is a multiple of 8192,
then per bank and per block run `patchBlock`. -/
def patch (img : Image) (t : Target) : PatchResult × List HwEv :=
  if img.len % BYTE_PER_BANK ≠ 0 then (PatchResult.invalidSize, [])
  else
    match patchBanks img t (List.range (img.len / BYTE_PER_BANK)) with
    | (some r, tr) => (r, tr)
    | (none, tr) => (PatchResult.ok, tr)

/-- Number of occurrences of one hardware event in a trace. -/
def countEv (tr : List HwEv) (e : HwEv) : Nat :=
  tr.countP fun x => decide (x = e)

end Issp

namespace Issp

/-- Is this event a memory read? -/
def isRead : HwEv → Bool
  | HwEv.readMem _ => true
  | _ => false

/-- Is this event sending the given vector? -/
def isVec (k : VecKind) : HwEv → Bool
  | HwEv.vec v => v == k
  | _ => false

/-- Is this event a register write? -/
def isRegWrite : HwEv → Bool
  | HwEv.writeReg _ _ => true
  | _ => false

end Issp

/-- C8 counterexample: `set_bank_num 0` performs three register writes
(enter bank-select mode, write the bank number, exit bank-select mode),
not exactly two as claimed. -/
theorem c8_counterexample :
    (Issp.set_bank_num 0).countP Issp.isRegWrite ≠ 2 ∧
    (Issp.set_bank_num 0).countP Issp.isRegWrite = 3 := by
  decide

/-- C8 amended: for every bank index, `set_bank_num` performs exactly three
register writes — 0xF7 ← 0x10 entering bank-select mode, 0xFA ← bank writing
the bank number, and 0xF7 ← 0x00 exiting bank-select mode. -/
theorem c8_set_bank_num_three_writes (bank : Nat) :
    Issp.set_bank_num bank =
      [Issp.HwEv.writeReg 0xF7 0x10, Issp.HwEv.writeReg 0xFA bank,
       Issp.HwEv.writeReg 0xF7 0x00] ∧
    (Issp.set_bank_num bank).countP Issp.isRegWrite = 3 :=
  ⟨rfl, rfl⟩

/-- C5: for every image whose length is not a multiple of 8192, each of
`program`, `verify` and `patch` fails with the invalid-size assert before
performing any hardware operation: the result is `invalidSize` and the
hardware trace is empty. -/
theorem c5_invalid_size_no_hardware (img : Issp.Image) (t : Issp.Target)
    (h : img.len % 8192 ≠ 0) :
    Issp.program img = (Issp.ProgResult.invalidSize, []) ∧
    Issp.verify img t = (Issp.VerifyResult.invalidSize, []) ∧
    Issp.patch img t = (Issp.PatchResult.invalidSize, []) := by
  have h' : img.len % Issp.BYTE_PER_BANK ≠ 0 := h
  refine ⟨?_, ?_, ?_⟩
  · unfold Issp.program
    rw [if_pos h']
  · unfold Issp.verify
    rw [if_pos h']
  · unfold Issp.patch
    rw [if_pos h']

/-- Witness for C5 at a 1-byte image. -/
theorem c5_invalid_size_no_hardware_witness :
    (Issp.Image.mk 1 fun _ => 0).len % 8192 ≠ 0 ∧
    (Issp.program ⟨1, fun _ => 0⟩ = (Issp.ProgResult.invalidSize, []) ∧
     Issp.verify ⟨1, fun _ => 0⟩ ⟨fun _ _ _ => 0, fun _ _ => 0, fun _ _ => 0, fun _ _ => 0⟩ =
       (Issp.VerifyResult.invalidSize, []) ∧
     Issp.patch ⟨1, fun _ => 0⟩ ⟨fun _ _ _ => 0, fun _ _ => 0, fun _ _ => 0, fun _ _ => 0⟩ =
       (Issp.PatchResult.invalidSize, [])) :=
  ⟨by decide,
    c5_invalid_size_no_hardware ⟨1, fun _ => 0⟩
      ⟨fun _ _ _ => 0, fun _ _ => 0, fun _ _ => 0, fun _ _ => 0⟩ (by decide)⟩


namespace Issp

lemma scanBlock_cons_mismatch {img : Image} {t : Target} {bk bl i : Nat} {L : List Nat}
    (hne : img.byteAt ((bk * 128 + bl) * 64 + i) ≠ t.flash bk bl i) :
    scanBlock img t bk bl (i :: L) = (some i, [HwEv.readMem (0b10000000 ||| i)]) := by
  rw [scanBlock, if_pos hne]

lemma scanBlock_cons_match {img : Image} {t : Target} {bk bl i : Nat} {L : List Nat}
    (heq : img.byteAt ((bk * 128 + bl) * 64 + i) = t.flash bk bl i) :
    scanBlock img t bk bl (i :: L) =
      ((scanBlock img t bk bl L).1,
        HwEv.readMem (0b10000000 ||| i) :: (scanBlock img t bk bl L).2) := by
  rw [scanBlock, if_neg (not_not_intro heq)]

lemma countP_singleton (p : HwEv → Bool) (e : HwEv) :
    [e].countP p = if p e then 1 else 0 := by
  simp [List.countP_cons]

lemma scanBlock_some_spec {img : Image} {t : Target} {bk bl : Nat} (n : Nat) :
    ∀ s i tr, scanBlock img t bk bl (List.range' s n) = (some i, tr) →
      s ≤ i ∧ i < s + n ∧
      img.byteAt ((bk * 128 + bl) * 64 + i) ≠ t.flash bk bl i ∧
      (∀ j, s ≤ j → j < i → img.byteAt ((bk * 128 + bl) * 64 + j) = t.flash bk bl j) ∧
      tr.countP isRead = i - s + 1 ∧
      (∀ k, tr.countP (isVec k) = 0) := by
  induction n with
  | zero =>
    intro s i tr h
    rw [show List.range' s 0 = [] from rfl, scanBlock] at h
    injection h with h1 h2
    exact Option.noConfusion h1
  | succ n ih =>
    intro s i tr h
    rw [show List.range' s (n + 1) = s :: List.range' (s + 1) n from rfl] at h
    by_cases hb : img.byteAt ((bk * 128 + bl) * 64 + s) = t.flash bk bl s
    · rw [scanBlock_cons_match hb] at h
      rcases hs2 : scanBlock img t bk bl (List.range' (s + 1) n) with ⟨o2, tr2⟩
      rw [hs2] at h
      injection h with h1 h2
      subst h1
      subst h2
      obtain ⟨hle, hlt, hne, hpre, hcr, hcv⟩ := ih (s + 1) i tr2 hs2
      refine ⟨by omega, by omega, hne, ?_, ?_, ?_⟩
      · intro j hj1 hj2
        rcases Nat.eq_or_lt_of_le hj1 with hj | hj
        · exact hj ▸ hb
        · exact hpre j hj hj2
      · rw [List.countP_cons]
        simp [isRead]
        omega
      · intro k
        rw [List.countP_cons, hcv k]
        simp [isVec]
    · rw [scanBlock_cons_mismatch hb] at h
      injection h with h1 h2
      injection h1 with h1
      subst h1
      subst h2
      refine ⟨Nat.le_refl s, by omega, hb, fun j hj1 hj2 => absurd hj1 (by omega), ?_, ?_⟩
      · rw [countP_singleton]
        simp [isRead]
      · intro k
        rw [countP_singleton]
        simp [isVec]

lemma scanBlock_none_spec {img : Image} {t : Target} {bk bl : Nat} (n : Nat) :
    ∀ s tr, scanBlock img t bk bl (List.range' s n) = (none, tr) →
      tr.countP isRead = n ∧ (∀ k, tr.countP (isVec k) = 0) := by
  induction n with
  | zero =>
    intro s tr h
    rw [show List.range' s 0 = [] from rfl, scanBlock] at h
    injection h with h1 h2
    subst h2
    exact ⟨rfl, fun k => rfl⟩
  | succ n ih =>
    intro s tr h
    rw [show List.range' s (n + 1) = s :: List.range' (s + 1) n from rfl] at h
    by_cases hb : img.byteAt ((bk * 128 + bl) * 64 + s) = t.flash bk bl s
    · rw [scanBlock_cons_match hb] at h
      rcases hs2 : scanBlock img t bk bl (List.range' (s + 1) n) with ⟨o2, tr2⟩
      rw [hs2] at h
      injection h with h1 h2
      subst h1
      subst h2
      obtain ⟨hcr, hcv⟩ := ih (s + 1) tr2 hs2
      constructor
      · rw [List.countP_cons]
        simp [isRead]
        omega
      · intro k
        rw [List.countP_cons, hcv k]
        simp [isVec]
    · rw [scanBlock_cons_mismatch hb] at h
      injection h with h1 h2
      exact Option.noConfusion h1

lemma scanBlock_all_match {img : Image} {t : Target} {bk bl : Nat} (n : Nat) :
    ∀ s, (∀ i, s ≤ i → i < s + n →
        img.byteAt ((bk * 128 + bl) * 64 + i) = t.flash bk bl i) →
      scanBlock img t bk bl (List.range' s n) =
        (none, (List.range' s n).map fun i => HwEv.readMem (0b10000000 ||| i)) := by
  induction n with
  | zero =>
    intro s hall
    rfl
  | succ n ih =>
    intro s hall
    rw [show List.range' s (n + 1) = s :: List.range' (s + 1) n from rfl,
      scanBlock_cons_match (hall s (Nat.le_refl s) (by omega)),
      ih (s + 1) (fun i h1 h2 => hall i (by omega) (by omega))]
    rfl

end Issp

namespace Issp

lemma verifyBlocks_cons_some {img : Image} {t : Target} {bk b ib : Nat} {trb : List HwEv}
    {L : List Nat} (h : scanBlock img t bk b (List.range 64) = (some ib, trb)) :
    verifyBlocks img t bk (b :: L) =
      (some (b, ib), (set_block_num b ++ verify_setup) ++ trb) := by
  rw [verifyBlocks, h]

lemma verifyBlocks_cons_none {img : Image} {t : Target} {bk b : Nat} {trb : List HwEv}
    {L : List Nat} (h : scanBlock img t bk b (List.range 64) = (none, trb)) :
    verifyBlocks img t bk (b :: L) =
      ((verifyBlocks img t bk L).1,
        (set_block_num b ++ verify_setup) ++ trb ++ (verifyBlocks img t bk L).2) := by
  rw [verifyBlocks, h]

lemma verify_pre_setup_count (b : Nat) :
    (set_block_num b ++ verify_setup).countP (isVec VecKind.verifySetup) = 1 := by
  simp [set_block_num, write_memory, verify_setup, List.countP_cons, List.countP_append, isVec]

lemma verify_pre_read_count (b : Nat) :
    (set_block_num b ++ verify_setup).countP isRead = 0 := by
  simp [set_block_num, write_memory, verify_setup, List.countP_cons, List.countP_append, isRead]

lemma verifyBlocks_some_spec {img : Image} {t : Target} {bk : Nat} (n : Nat) :
    ∀ s bl ib tr, verifyBlocks img t bk (List.range' s n) = (some (bl, ib), tr) →
      s ≤ bl ∧ bl < s + n ∧ ib < 64 ∧
      img.byteAt ((bk * 128 + bl) * 64 + ib) ≠ t.flash bk bl ib ∧
      (∀ j, j < ib → img.byteAt ((bk * 128 + bl) * 64 + j) = t.flash bk bl j) ∧
      tr.countP (isVec VecKind.verifySetup) = bl - s + 1 ∧
      tr.countP isRead = 64 * (bl - s) + ib + 1 := by
  induction n with
  | zero =>
    intro s bl ib tr h
    rw [show List.range' s 0 = [] from rfl, verifyBlocks] at h
    injection h with h1 h2
    exact Option.noConfusion h1
  | succ n ih =>
    intro s bl ib tr h
    rw [show List.range' s (n + 1) = s :: List.range' (s + 1) n from rfl] at h
    rcases hscan : scanBlock img t bk s (List.range 64) with ⟨o, trb⟩
    cases o with
    | some ibyte =>
      rw [verifyBlocks_cons_some hscan] at h
      injection h with h1 h2
      injection h1 with h1
      injection h1 with h1a h1b
      subst h1a
      subst h1b
      subst h2
      rw [List.range_eq_range'] at hscan
      obtain ⟨-, hlt, hne, hpre, hcr, hcv⟩ := scanBlock_some_spec 64 0 ibyte trb hscan
      refine ⟨le_rfl, by omega, by omega, hne,
        fun j hj => hpre j (Nat.zero_le j) hj, ?_, ?_⟩
      · rw [List.countP_append, verify_pre_setup_count, hcv]
        omega
      · rw [List.countP_append, verify_pre_read_count, hcr]
        omega
    | none =>
      rw [verifyBlocks_cons_none hscan] at h
      rcases hvb : verifyBlocks img t bk (List.range' (s + 1) n) with ⟨o2, tr2⟩
      rw [hvb] at h
      injection h with h1 h2
      subst h1
      subst h2
      rw [List.range_eq_range'] at hscan
      obtain ⟨hsb, hlt, hib, hne, hpre, hcs, hcr⟩ := ih (s + 1) bl ib tr2 hvb
      obtain ⟨hnr, hnv⟩ := scanBlock_none_spec 64 0 trb hscan
      refine ⟨by omega, by omega, hib, hne, hpre, ?_, ?_⟩
      · rw [List.countP_append, List.countP_append, verify_pre_setup_count,
          hnv VecKind.verifySetup, hcs]
        omega
      · rw [List.countP_append, List.countP_append, verify_pre_read_count, hnr, hcr]
        omega

lemma verifyBlocks_none_spec {img : Image} {t : Target} {bk : Nat} (n : Nat) :
    ∀ s tr, verifyBlocks img t bk (List.range' s n) = (none, tr) →
      tr.countP (isVec VecKind.verifySetup) = n ∧ tr.countP isRead = 64 * n := by
  induction n with
  | zero =>
    intro s tr h
    rw [show List.range' s 0 = [] from rfl, verifyBlocks] at h
    injection h with h1 h2
    subst h2
    exact ⟨rfl, rfl⟩
  | succ n ih =>
    intro s tr h
    rw [show List.range' s (n + 1) = s :: List.range' (s + 1) n from rfl] at h
    rcases hscan : scanBlock img t bk s (List.range 64) with ⟨o, trb⟩
    cases o with
    | some ibyte =>
      rw [verifyBlocks_cons_some hscan] at h
      injection h with h1 h2
      exact Option.noConfusion h1
    | none =>
      rw [verifyBlocks_cons_none hscan] at h
      rcases hvb : verifyBlocks img t bk (List.range' (s + 1) n) with ⟨o2, tr2⟩
      rw [hvb] at h
      injection h with h1 h2
      subst h1
      subst h2
      rw [List.range_eq_range'] at hscan
      obtain ⟨hcs, hcr⟩ := ih (s + 1) tr2 hvb
      obtain ⟨hnr, hnv⟩ := scanBlock_none_spec 64 0 trb hscan
      constructor
      · rw [List.countP_append, List.countP_append, verify_pre_setup_count,
          hnv VecKind.verifySetup, hcs]
        omega
      · rw [List.countP_append, List.countP_append, verify_pre_read_count, hnr, hcr]
        omega

end Issp

namespace Issp

lemma verifyBanks_cons_some {img : Image} {t : Target} {b bl ib : Nat} {trb : List HwEv}
    {L : List Nat} (h : verifyBlocks img t b (List.range 128) = (some (bl, ib), trb)) :
    verifyBanks img t (b :: L) = (some (b, bl, ib), set_bank_num b ++ trb) := by
  rw [verifyBanks, h]

lemma verifyBanks_cons_none {img : Image} {t : Target} {b : Nat} {trb : List HwEv}
    {L : List Nat} (h : verifyBlocks img t b (List.range 128) = (none, trb)) :
    verifyBanks img t (b :: L) =
      ((verifyBanks img t L).1, set_bank_num b ++ trb ++ (verifyBanks img t L).2) := by
  rw [verifyBanks, h]

lemma set_bank_num_vec_count (b : Nat) (k : VecKind) :
    (set_bank_num b).countP (isVec k) = 0 := by
  simp [set_bank_num, write_register, List.countP_cons, List.countP_append, isVec]

lemma set_bank_num_read_count (b : Nat) :
    (set_bank_num b).countP isRead = 0 := by
  simp [set_bank_num, write_register, List.countP_cons, List.countP_append, isRead]

lemma verifyBanks_some_spec {img : Image} {t : Target} (n : Nat) :
    ∀ s bk bl ib tr, verifyBanks img t (List.range' s n) = (some (bk, bl, ib), tr) →
      s ≤ bk ∧ bk < s + n ∧ bl < 128 ∧ ib < 64 ∧
      img.byteAt ((bk * 128 + bl) * 64 + ib) ≠ t.flash bk bl ib ∧
      (∀ j, j < ib → img.byteAt ((bk * 128 + bl) * 64 + j) = t.flash bk bl j) ∧
      tr.countP (isVec VecKind.verifySetup) = (bk - s) * 128 + bl + 1 ∧
      tr.countP isRead = ((bk - s) * 128 + bl) * 64 + ib + 1 := by
  induction n with
  | zero =>
    intro s bk bl ib tr h
    rw [show List.range' s 0 = [] from rfl, verifyBanks] at h
    injection h with h1 h2
    exact Option.noConfusion h1
  | succ n ih =>
    intro s bk bl ib tr h
    rw [show List.range' s (n + 1) = s :: List.range' (s + 1) n from rfl] at h
    rcases hvb : verifyBlocks img t s (List.range 128) with ⟨o, trb⟩
    cases o with
    | some p =>
      rcases p with ⟨bl2, ib2⟩
      rw [verifyBanks_cons_some hvb] at h
      injection h with h1 h2
      injection h1 with h1
      injection h1 with h1a h1b
      injection h1b with h1b h1c
      subst h1a
      subst h1b
      subst h1c
      subst h2
      rw [List.range_eq_range'] at hvb
      obtain ⟨-, hbl, hib, hne, hpre, hcs, hcr⟩ := verifyBlocks_some_spec 128 0 bl2 ib2 trb hvb
      refine ⟨le_rfl, by omega, by omega, hib, hne, hpre, ?_, ?_⟩
      · rw [List.countP_append, set_bank_num_vec_count, hcs]
        omega
      · rw [List.countP_append, set_bank_num_read_count, hcr]
        have : bl2 - 0 = bl2 := Nat.sub_zero bl2
        omega
    | none =>
      rw [verifyBanks_cons_none hvb] at h
      rcases hvk : verifyBanks img t (List.range' (s + 1) n) with ⟨o2, tr2⟩
      rw [hvk] at h
      injection h with h1 h2
      subst h1
      subst h2
      rw [List.range_eq_range'] at hvb
      obtain ⟨hsb, hlt, hbl, hib, hne, hpre, hcs, hcr⟩ := ih (s + 1) bk bl ib tr2 hvk
      obtain ⟨hns, hnr⟩ := verifyBlocks_none_spec 128 0 trb hvb
      refine ⟨by omega, by omega, hbl, hib, hne, hpre, ?_, ?_⟩
      · rw [List.countP_append, List.countP_append, set_bank_num_vec_count, hns, hcs]
        have h1 : (bk - s) * 128 = (bk - (s + 1)) * 128 + 128 := by
          have : bk - s = (bk - (s + 1)) + 1 := by omega
          rw [this]
          ring
        omega
      · rw [List.countP_append, List.countP_append, set_bank_num_read_count, hnr, hcr]
        have h1 : (bk - s) * 128 = (bk - (s + 1)) * 128 + 128 := by
          have : bk - s = (bk - (s + 1)) + 1 := by omega
          rw [this]
          ring
        have h2 : ((bk - s) * 128 + bl) * 64 =
            ((bk - (s + 1)) * 128 + bl) * 64 + 128 * 64 := by
          rw [h1]
          ring
        omega

end Issp

/-- C3 counterexample image: 8192 zero bytes. -/
def c3Img : Issp.Image := ⟨8192, fun _ => 0⟩

/-- C3 counterexample target: reads back 1 at bank 0, block 3, byte 5 and 0
everywhere else, so two facts below show `verify` reports the first mismatch
and never proceeds to any later block. -/
def c3Tgt : Issp.Target :=
  ⟨fun _ bl i => if bl = 3 ∧ i = 5 then 1 else 0, fun _ _ => 0, fun _ _ => 0, fun _ _ => 0⟩

/-- C3 counterexample: with a mismatch at bank 0, block 3, byte 5, `verify`
reports exactly that mismatch but performs only 4 verify-setups (blocks 0-3)
and never selects block 4: contrary to the claim, the outer block loop does
not continue past the failing block — the raised error aborts the whole
procedure. -/
theorem c3_counterexample :
    (Issp.verify c3Img c3Tgt).1 = Issp.VerifyResult.mismatch 0 3 5 ∧
    Issp.HwEv.writeMem 0xFA 4 ∉ (Issp.verify c3Img c3Tgt).2 ∧
    (Issp.verify c3Img c3Tgt).2.countP (Issp.isVec Issp.VecKind.verifySetup) = 4 := by
  decide

/-- C3 (amended): whenever `verify` reports a mismatch at (bank, block, byte),
that byte is the first mismatching byte of that block (all earlier bytes of
the block match), the byte loop of that block stops there (the reads
performed are exactly those of the fully compared earlier blocks plus
byte+1 reads of the failing block), and the outer block loop does not
continue: exactly bank*128 + block + 1 verify-setups are performed in total,
so no later block is set up — the raised error aborts the whole verify. -/
theorem c3_verify_mismatch_halts (img : Issp.Image) (t : Issp.Target) (bk bl ib : Nat)
    (h : (Issp.verify img t).1 = Issp.VerifyResult.mismatch bk bl ib) :
    bl < 128 ∧ ib < 64 ∧
    img.byteAt ((bk * 128 + bl) * 64 + ib) ≠ t.flash bk bl ib ∧
    (∀ j, j < ib → img.byteAt ((bk * 128 + bl) * 64 + j) = t.flash bk bl j) ∧
    (Issp.verify img t).2.countP (Issp.isVec Issp.VecKind.verifySetup) =
      bk * 128 + bl + 1 ∧
    (Issp.verify img t).2.countP Issp.isRead = (bk * 128 + bl) * 64 + ib + 1 := by
  by_cases hsz : img.len % Issp.BYTE_PER_BANK ≠ 0
  · rw [Issp.verify, if_pos hsz] at h
    exact absurd h (by simp)
  · rw [Issp.verify, if_neg hsz] at h ⊢
    rcases hvk : Issp.verifyBanks img t (List.range (img.len / Issp.BYTE_PER_BANK))
      with ⟨o, tr⟩
    cases o with
    | none =>
      rw [hvk] at h
      exact Issp.VerifyResult.noConfusion h
    | some p =>
      rcases p with ⟨bk2, bl2, ib2⟩
      rw [hvk] at h
      injection h with ha hb2 hc
      subst ha
      subst hb2
      subst hc
      rw [List.range_eq_range'] at hvk
      obtain ⟨-, -, hbl, hib, hne, hpre, hcs, hcr⟩ :=
        Issp.verifyBanks_some_spec (img.len / Issp.BYTE_PER_BANK) 0 bk2 bl2 ib2 tr hvk
      refine ⟨hbl, hib, hne, hpre, ?_, ?_⟩
      · show tr.countP (Issp.isVec Issp.VecKind.verifySetup) = bk2 * 128 + bl2 + 1
        rw [hcs]
        omega
      · show tr.countP Issp.isRead = (bk2 * 128 + bl2) * 64 + ib2 + 1
        rw [hcr]
        omega

/-- Witness for C3 at the counterexample image and target: the mismatch at
bank 0, block 3, byte 5 is reported with 4 setups and 3*64 + 6 reads. -/
theorem c3_verify_mismatch_halts_witness :
    (Issp.verify c3Img c3Tgt).1 = Issp.VerifyResult.mismatch 0 3 5 ∧
    (3 < 128 ∧ 5 < 64 ∧
     c3Img.byteAt ((0 * 128 + 3) * 64 + 5) ≠ c3Tgt.flash 0 3 5 ∧
     (∀ j, j < 5 → c3Img.byteAt ((0 * 128 + 3) * 64 + j) = c3Tgt.flash 0 3 j) ∧
     (Issp.verify c3Img c3Tgt).2.countP (Issp.isVec Issp.VecKind.verifySetup) =
       0 * 128 + 3 + 1 ∧
     (Issp.verify c3Img c3Tgt).2.countP Issp.isRead = (0 * 128 + 3) * 64 + 5 + 1) :=
  ⟨by decide, c3_verify_mismatch_halts c3Img c3Tgt 0 3 5 (by decide)⟩

namespace Issp

lemma map_read_countP_isVec (k : VecKind) (L : List Nat) :
    ((L.map fun i => HwEv.readMem (0b10000000 ||| i)).countP (isVec k)) = 0 := by
  induction L with
  | nil => rfl
  | cons a L ih => simp [List.countP_cons, isVec, ih]

lemma patchBlock_skip {img : Image} {t : Target} {bk bl : Nat}
    (h0 : t.readStatus bk bl = 0)
    (hall : ∀ i, i < 64 → img.byteAt ((bk * 128 + bl) * 64 + i) = t.flash bk bl i) :
    patchBlock img t bk bl =
      (none, (set_block_num bl ++ verify_setup ++ [HwEv.readMem 0xF8]) ++
        (List.range' 0 64).map fun i => HwEv.readMem (0b10000000 ||| i)) := by
  rw [patchBlock, if_neg (by simp [h0]),
    show List.range 64 = List.range' 0 64 from List.range_eq_range' 64,
    scanBlock_all_match 64 0 (fun i h1 h2 => hall i (by omega))]

lemma skip_trace_vec_count (bl : Nat) (k : VecKind) :
    (((set_block_num bl ++ verify_setup ++ [HwEv.readMem 0xF8]) ++
      (List.range' 0 64).map fun i => HwEv.readMem (0b10000000 ||| i)).countP (isVec k))
    = if k = VecKind.verifySetup then 1 else 0 := by
  rw [List.countP_append, map_read_countP_isVec]
  rcases k <;>
    simp [set_block_num, write_memory, verify_setup, List.countP_cons,
      List.countP_append, isVec]

lemma patchBlocks_cons_none {img : Image} {t : Target} {bk b : Nat} {trb : List HwEv}
    {L : List Nat} (h : patchBlock img t bk b = (none, trb)) :
    patchBlocks img t bk (b :: L) =
      ((patchBlocks img t bk L).1, trb ++ (patchBlocks img t bk L).2) := by
  rw [patchBlocks, h]

lemma patchBlocks_skip {img : Image} {t : Target} {bk : Nat} :
    ∀ L : List Nat,
      (∀ bl ∈ L, t.readStatus bk bl = 0) →
      (∀ bl ∈ L, ∀ i, i < 64 →
        img.byteAt ((bk * 128 + bl) * 64 + i) = t.flash bk bl i) →
      (patchBlocks img t bk L).1 = none ∧
      (patchBlocks img t bk L).2.countP (isVec VecKind.eraseBlock) = 0 ∧
      (patchBlocks img t bk L).2.countP (isVec VecKind.programBlock) = 0 ∧
      (patchBlocks img t bk L).2.countP (isVec VecKind.verifySetup) = L.length := by
  intro L
  induction L with
  | nil => intro _ _; exact ⟨rfl, rfl, rfl, rfl⟩
  | cons b L ih =>
    intro h0 hall
    rw [patchBlocks_cons_none
      (patchBlock_skip (h0 b (List.mem_cons_self b L)) (hall b (List.mem_cons_self b L)))]
    obtain ⟨ih1, ihe, ihp, ihs⟩ := ih
      (fun bl hbl => h0 bl (List.mem_cons_of_mem b hbl))
      (fun bl hbl => hall bl (List.mem_cons_of_mem b hbl))
    refine ⟨ih1, ?_, ?_, ?_⟩
    · rw [List.countP_append, skip_trace_vec_count, ihe]
      simp
    · rw [List.countP_append, skip_trace_vec_count, ihp]
      simp
    · rw [List.countP_append, skip_trace_vec_count, ihs]
      simp [Nat.add_comm]

lemma patchBanks_cons_none {img : Image} {t : Target} {b : Nat} {trb : List HwEv}
    {L : List Nat} (h : patchBlocks img t b (List.range 128) = (none, trb)) :
    patchBanks img t (b :: L) =
      ((patchBanks img t L).1, set_bank_num b ++ trb ++ (patchBanks img t L).2) := by
  rw [patchBanks, h]

lemma patchBanks_skip {img : Image} {t : Target} :
    ∀ L : List Nat,
      (∀ bk ∈ L, ∀ bl, bl < 128 → t.readStatus bk bl = 0) →
      (∀ bk ∈ L, ∀ bl, bl < 128 → ∀ i, i < 64 →
        img.byteAt ((bk * 128 + bl) * 64 + i) = t.flash bk bl i) →
      (patchBanks img t L).1 = none ∧
      (patchBanks img t L).2.countP (isVec VecKind.eraseBlock) = 0 ∧
      (patchBanks img t L).2.countP (isVec VecKind.programBlock) = 0 ∧
      (patchBanks img t L).2.countP (isVec VecKind.verifySetup) = 128 * L.length := by
  intro L
  induction L with
  | nil => intro _ _; exact ⟨rfl, rfl, rfl, rfl⟩
  | cons b L ih =>
    intro h0 hall
    obtain ⟨hb1, hbe, hbp, hbs⟩ := @patchBlocks_skip img t b (List.range 128)
      (fun bl hbl => h0 b (List.mem_cons_self b L) bl (List.mem_range.mp hbl))
      (fun bl hbl => hall b (List.mem_cons_self b L) bl (List.mem_range.mp hbl))
    have hpair : patchBlocks img t b (List.range 128) =
        (none, (patchBlocks img t b (List.range 128)).2) := by
      rw [← hb1]
    rw [patchBanks_cons_none hpair]
    obtain ⟨ih1, ihe, ihp, ihs⟩ := ih
      (fun bk hbk => h0 bk (List.mem_cons_of_mem b hbk))
      (fun bk hbk => hall bk (List.mem_cons_of_mem b hbk))
    refine ⟨ih1, ?_, ?_, ?_⟩
    · rw [List.countP_append, List.countP_append, set_bank_num_vec_count, hbe, ihe]
    · rw [List.countP_append, List.countP_append, set_bank_num_vec_count, hbp, ihp]
    · rw [List.countP_append, List.countP_append, set_bank_num_vec_count, hbs, ihs]
      simp only [List.length_range, List.length_cons]
      omega

end Issp

/-- C4: for an image whose length is a multiple of 8192 and a target whose
every block already reads back equal to the image (and whose status reads at
0xF8 return zero), `patch` succeeds with zero erase-block and zero
program-block operations: every one of the banks*128 blocks takes the skip
path (one verify-setup each, no erase, no program). -/
theorem c4_patch_idempotent (img : Issp.Image) (t : Issp.Target)
    (hlen : img.len % 8192 = 0)
    (hflash : ∀ bk, bk < img.len / 8192 → ∀ bl, bl < 128 → ∀ i, i < 64 →
      img.byteAt ((bk * 128 + bl) * 64 + i) = t.flash bk bl i)
    (hstatus : ∀ bk, bk < img.len / 8192 → ∀ bl, bl < 128 → t.readStatus bk bl = 0) :
    (Issp.patch img t).1 = Issp.PatchResult.ok ∧
    (Issp.patch img t).2.countP (Issp.isVec Issp.VecKind.eraseBlock) = 0 ∧
    (Issp.patch img t).2.countP (Issp.isVec Issp.VecKind.programBlock) = 0 ∧
    (Issp.patch img t).2.countP (Issp.isVec Issp.VecKind.verifySetup) =
      (img.len / 8192) * 128 := by
  have hsz : ¬ img.len % Issp.BYTE_PER_BANK ≠ 0 := fun hc => hc hlen
  obtain ⟨h1, he, hp, hs⟩ := @Issp.patchBanks_skip img t
    (List.range (img.len / Issp.BYTE_PER_BANK))
    (fun bk hbk => hstatus bk (List.mem_range.mp hbk))
    (fun bk hbk => hflash bk (List.mem_range.mp hbk))
  have hpair : Issp.patchBanks img t (List.range (img.len / Issp.BYTE_PER_BANK)) =
      (none, (Issp.patchBanks img t (List.range (img.len / Issp.BYTE_PER_BANK))).2) := by
    rw [← h1]
  rw [Issp.patch, if_neg hsz, hpair]
  refine ⟨rfl, he, hp, ?_⟩
  rw [hs, List.length_range, show Issp.BYTE_PER_BANK = 8192 from by decide]
  omega

set_option maxRecDepth 100000 in
/-- Witness for C4 at an all-zero 8192-byte image against an all-zero
target. -/
theorem c4_patch_idempotent_witness :
    ((Issp.Image.mk 8192 fun _ => 0).len % 8192 = 0 ∧
     (∀ bk, bk < (Issp.Image.mk 8192 fun _ => 0).len / 8192 → ∀ bl, bl < 128 →
        ∀ i, i < 64 →
        (Issp.Image.mk 8192 fun _ => 0).byteAt ((bk * 128 + bl) * 64 + i) =
          (Issp.Target.mk (fun _ _ _ => 0) (fun _ _ => 0) (fun _ _ => 0)
            (fun _ _ => 0)).flash bk bl i)) ∧
    ((Issp.patch ⟨8192, fun _ => 0⟩
        ⟨fun _ _ _ => 0, fun _ _ => 0, fun _ _ => 0, fun _ _ => 0⟩).1 =
      Issp.PatchResult.ok ∧
     (Issp.patch ⟨8192, fun _ => 0⟩
        ⟨fun _ _ _ => 0, fun _ _ => 0, fun _ _ => 0, fun _ _ => 0⟩).2.countP
       (Issp.isVec Issp.VecKind.eraseBlock) = 0 ∧
     (Issp.patch ⟨8192, fun _ => 0⟩
        ⟨fun _ _ _ => 0, fun _ _ => 0, fun _ _ => 0, fun _ _ => 0⟩).2.countP
       (Issp.isVec Issp.VecKind.programBlock) = 0 ∧
     (Issp.patch ⟨8192, fun _ => 0⟩
        ⟨fun _ _ _ => 0, fun _ _ => 0, fun _ _ => 0, fun _ _ => 0⟩).2.countP
       (Issp.isVec Issp.VecKind.verifySetup) =
       ((Issp.Image.mk 8192 fun _ => 0).len / 8192) * 128) :=
  ⟨⟨by decide, by decide⟩,
    c4_patch_idempotent ⟨8192, fun _ => 0⟩
      ⟨fun _ _ _ => 0, fun _ _ => 0, fun _ _ => 0, fun _ _ => 0⟩
      (by decide) (by decide) (by decide)⟩

namespace IsspVec

/-- `ISSPOp` from issp_parser.py (without its bit-string values, which live
in `opFromStr`). -/
inductive ISSPOp where
  | WRITE_MEM
  | READ_MEM
  | WRITE_REG
  | READ_REG
  | NO_OP
deriving DecidableEq, Repr

/-- `ISSPOp(...)` construction from a 3-character bit-string: `'100'` is
WRITE_MEM, `'101'` READ_MEM, `'110'` WRITE_REG, `'111'` READ_REG, `'000'`
NO_OP; anything else raises ValueError, modelled as `none`. -/
def opFromStr (s : List Char) : Option ISSPOp :=
  if s = ['1', '0', '0'] then some ISSPOp.WRITE_MEM
  else if s = ['1', '0', '1'] then some ISSPOp.READ_MEM
  else if s = ['1', '1', '0'] then some ISSPOp.WRITE_REG
  else if s = ['1', '1', '1'] then some ISSPOp.READ_REG
  else if s = ['0', '0', '0'] then some ISSPOp.NO_OP
  else none

/-- A command tuple produced by `parse`: `(NO_OP,)` or `(op, address, value)`
with address and value kept as bit-strings. -/
inductive PCmd where
  | noop
  | cmd (op : ISSPOp) (address value : List Char)
deriving DecidableEq, Repr

/-- One loop iteration of `parse` from issp_parser.py on a single (up to)
22-character command string: the first 3 characters select the op; NO_OP
yields `(op,)`; otherwise address is `s[3:11]`, and value is `s[11:19]` for
WRITE_MEM/WRITE_REG and `s[12:20]` for the read kinds. -/
def parseOne (s : List Char) : Option PCmd :=
  match opFromStr (s.take 3) with
  | none => none
  | some ISSPOp.NO_OP => some PCmd.noop
  | some op =>
    some (PCmd.cmd op ((s.drop 3).take 8)
      (if op = ISSPOp.WRITE_MEM ∨ op = ISSPOp.WRITE_REG then (s.drop 11).take 8
       else (s.drop 12).take 8))

/-- The whitespace stripping at the top of `parse`. -/
def stripWs (s : List Char) : List Char :=
  s.filter fun c => !(c == '\r' || c == '\n' || c == ' ' || c == '\t')

/-- The `range(0, len(commands_str), 22)` slicing loop of `parse`, with the
number of remaining iterations bounded by a fuel argument: each iteration
consumes at least one character, so `s.length` steps always suffice. -/
def chunks22Go : Nat → List Char → List (List Char)
  | 0, _ => []
  | _, [] => []
  | fuel + 1, s => s.take 22 :: chunks22Go fuel (s.drop 22)

/-- The `range(0, len(commands_str), 22)` slicing loop of `parse`. -/
def chunks22 (s : List Char) : List (List Char) :=
  chunks22Go s.length s

/-- The accumulation of command tuples over all chunks. -/
def parseAll : List (List Char) → Option (List PCmd)
  | [] => some []
  | c :: rest =>
    match parseOne c, parseAll rest with
    | some p, some ps => some (p :: ps)
    | _, _ => none

/-- `parse(commands_str)` from issp_parser.py. -/
def parse (s : List Char) : Option (List PCmd) :=
  parseAll (chunks22 (stripWs s))

lemma getD_drop_take (l : List Char) (n k i : Nat) (hik : i < k) (h : n + i < l.length) :
    ((l.drop n).take k).getD i 'x' = l.getD (n + i) 'x' := by
  rw [List.getD_eq_getElem?_getD, List.getD_eq_getElem?_getD, List.getElem?_take,
    if_pos hik, List.getElem?_drop]

end IsspVec

/-- C7 counterexample: on the 22-bit read-memory command
`101 00000000 0 11111111 00` the parser returns address `00000000` — the
bits at positions 3-10, the same position as for write kinds — not the
8 characters starting at the 12th bit (those are `11111111`, which become
the value field).  The claim misplaces the read-kind address field. -/
theorem c7_counterexample :
    IsspVec.parse ("1010000000001111111100".toList) =
      some [IsspVec.PCmd.cmd IsspVec.ISSPOp.READ_MEM
        ("00000000".toList) ("11111111".toList)] ∧
    ("00000000".toList : List Char) ≠
      (("1010000000001111111100".toList.drop 12).take 8 : List Char) := by
  constructor
  · rfl
  · decide

/-- C7 (amended): for every 22-character command string whose first 3
characters select a non-NO_OP op kind, the address field is always the 8
characters at positions 3-10 (for read kinds just as for write kinds); it is
the VALUE field that starts 1 bit later for read kinds — positions 12-19,
versus positions 11-18 for write kinds. -/
theorem c7_parse_field_positions (s : List Char) (op : IsspVec.ISSPOp)
    (hlen : s.length = 22)
    (hop : IsspVec.opFromStr (s.take 3) = some op)
    (hnoop : op ≠ IsspVec.ISSPOp.NO_OP) :
    ∃ a v, IsspVec.parseOne s = some (IsspVec.PCmd.cmd op a v) ∧
      a.length = 8 ∧ v.length = 8 ∧
      (∀ i, i < 8 → a.getD i 'x' = s.getD (3 + i) 'x') ∧
      ((op = IsspVec.ISSPOp.READ_MEM ∨ op = IsspVec.ISSPOp.READ_REG) →
        ∀ i, i < 8 → v.getD i 'x' = s.getD (12 + i) 'x') ∧
      ((op = IsspVec.ISSPOp.WRITE_MEM ∨ op = IsspVec.ISSPOp.WRITE_REG) →
        ∀ i, i < 8 → v.getD i 'x' = s.getD (11 + i) 'x') := by
  have hlen3 : ((s.drop 3).take 8).length = 8 := by
    simp [List.length_take, List.length_drop, hlen]
  have hlen11 : ((s.drop 11).take 8).length = 8 := by
    simp [List.length_take, List.length_drop, hlen]
  have hlen12 : ((s.drop 12).take 8).length = 8 := by
    simp [List.length_take, List.length_drop, hlen]
  have haddr : ∀ i, i < 8 → ((s.drop 3).take 8).getD i 'x' = s.getD (3 + i) 'x' :=
    fun i hi => IsspVec.getD_drop_take s 3 8 i hi (by omega)
  have hv11 : ∀ i, i < 8 → ((s.drop 11).take 8).getD i 'x' = s.getD (11 + i) 'x' :=
    fun i hi => IsspVec.getD_drop_take s 11 8 i hi (by omega)
  have hv12 : ∀ i, i < 8 → ((s.drop 12).take 8).getD i 'x' = s.getD (12 + i) 'x' :=
    fun i hi => IsspVec.getD_drop_take s 12 8 i hi (by omega)
  cases op with
  | NO_OP => exact absurd rfl hnoop
  | WRITE_MEM =>
    refine ⟨(s.drop 3).take 8, (s.drop 11).take 8, ?_, hlen3, hlen11, haddr,
      fun hc => absurd hc (by decide), fun _ => hv11⟩
    rw [IsspVec.parseOne, hop]
    rfl
  | WRITE_REG =>
    refine ⟨(s.drop 3).take 8, (s.drop 11).take 8, ?_, hlen3, hlen11, haddr,
      fun hc => absurd hc (by decide), fun _ => hv11⟩
    rw [IsspVec.parseOne, hop]
    rfl
  | READ_MEM =>
    refine ⟨(s.drop 3).take 8, (s.drop 12).take 8, ?_, hlen3, hlen12, haddr,
      fun _ => hv12, fun hc => absurd hc (by decide)⟩
    rw [IsspVec.parseOne, hop]
    rfl
  | READ_REG =>
    refine ⟨(s.drop 3).take 8, (s.drop 12).take 8, ?_, hlen3, hlen12, haddr,
      fun _ => hv12, fun hc => absurd hc (by decide)⟩
    rw [IsspVec.parseOne, hop]
    rfl

/-- Witness for C7 at the read-memory command of the counterexample. -/
theorem c7_parse_field_positions_witness :
    (("1010000000001111111100".toList : List Char).length = 22 ∧
     IsspVec.opFromStr (("1010000000001111111100".toList : List Char).take 3) =
       some IsspVec.ISSPOp.READ_MEM ∧
     IsspVec.ISSPOp.READ_MEM ≠ IsspVec.ISSPOp.NO_OP) ∧
    (∃ a v, IsspVec.parseOne ("1010000000001111111100".toList) =
        some (IsspVec.PCmd.cmd IsspVec.ISSPOp.READ_MEM a v) ∧
      a.length = 8 ∧ v.length = 8 ∧
      (∀ i, i < 8 →
        a.getD i 'x' = ("1010000000001111111100".toList : List Char).getD (3 + i) 'x') ∧
      ((IsspVec.ISSPOp.READ_MEM = IsspVec.ISSPOp.READ_MEM ∨
          IsspVec.ISSPOp.READ_MEM = IsspVec.ISSPOp.READ_REG) →
        ∀ i, i < 8 →
        v.getD i 'x' = ("1010000000001111111100".toList : List Char).getD (12 + i) 'x') ∧
      ((IsspVec.ISSPOp.READ_MEM = IsspVec.ISSPOp.WRITE_MEM ∨
          IsspVec.ISSPOp.READ_MEM = IsspVec.ISSPOp.WRITE_REG) →
        ∀ i, i < 8 →
        v.getD i 'x' = ("1010000000001111111100".toList : List Char).getD (11 + i) 'x')) :=
  ⟨⟨by decide, by rfl, by decide⟩,
    c7_parse_field_positions ("1010000000001111111100".toList) IsspVec.ISSPOp.READ_MEM
      (by decide) (by rfl) (by decide)⟩

namespace IntelHex

/-- `int.from_bytes(l, 'big')`. -/
def int_from_bytes (l : List Nat) : Nat :=
  l.foldl (fun acc b => acc * 256 + b) 0

/-- The mutable state of the line loop in `read_hex_file` (intelhex.py). -/
structure HexState where
  blocks : List (List Nat)
  security : List (List Nat)
  device_checksum : Option (List Nat)
  extended_address : Nat
  next_block_num : Nat
  num_banks : Option Nat
deriving DecidableEq, Repr

/-- The state at the top of `read_hex_file`. -/
def initState : HexState :=
  ⟨[], [], none, 0, 0, none⟩

/-- One iteration of the line loop of `read_hex_file` from intelhex.py, on
one already-hex-decoded record (the `:`-prefix filtering and
`bytes.fromhex` text decoding are elided: each record is the decoded byte
list).  Python's `line_bytes[0]` / `line_bytes[3]` indexing is modelled with
`getD _ 0` (it differs from Python only on records shorter than 4 bytes,
which no theorem below exercises), `line_bytes[1:3]` and `line_bytes[4:-1]`
with `drop`/`take`/`dropLast`, and `raise ValueError` with `Except.error`.
Returns `ok (false, st)` when the EOF record (type 1) breaks the loop and
`ok (true, st)` to continue with the next line. -/
def processLine (st : HexState) (line : List Nat) : Except String (Bool × HexState) :=
  if line.sum % 256 ≠ 0 then Except.error "Incorrect checksum"
  else
    let block_len := line.getD 0 0
    let address := int_from_bytes ((line.drop 1).take 2)
    let record_type := line.getD 3 0
    let block_data := (line.drop 4).dropLast
    if block_len ≠ block_data.length then Except.error "Incorrect data length"
    else if record_type = 1 then Except.ok (false, st)
    else if record_type = 4 then
      if block_len ≠ 2 then Except.error "Extended address length not 2 bytes"
      else Except.ok (true, { st with extended_address := int_from_bytes block_data })
    else if record_type = 0 then
      if st.extended_address = 0 then
        if st.num_banks ≠ none then Except.error "Unexpected extra program data block"
        else if block_len ≠ 64 then Except.error "Program data block not 64 bytes long"
        else if address ≠ st.next_block_num * 64 then Except.error "Unexpected block address"
        else Except.ok (true, { st with blocks := st.blocks ++ [block_data],
                                        next_block_num := st.next_block_num + 1 })
      else
        let resolved : Except String Nat :=
          match st.num_banks with
          | some nb => Except.ok nb
          | none =>
            if st.blocks.length % 128 ≠ 0 then
              Except.error "Program data has incomplete banks"
            else Except.ok (st.blocks.length / 128)
        match resolved with
        | Except.error e => Except.error e
        | Except.ok nb =>
          let st1 := { st with num_banks := some nb }
          if st.extended_address = 16 then
            if block_len ≠ 64 then Except.error "Security data block not 64 bytes long"
            else
              let remaining := nb - st.security.length
              if remaining = 0 then Except.error "Too many security data records"
              else
                let sec1 := st1.security ++ [block_data.take 32]
                let sec2 := if remaining > 1 then sec1 ++ [block_data.drop 32] else sec1
                Except.ok (true, { st1 with security := sec2 })
          else if st.extended_address = 32 then
            if st.security.length ≠ nb then
              Except.error "Not enough security data records"
            else if block_len ≠ 2 then Except.error "Checksum data block not 2 bytes long"
            else Except.ok (true, { st1 with device_checksum := some block_data })
          else Except.ok (true, st1)
    else Except.ok (true, st)

/-- The line loop of `read_hex_file`: run `processLine` over the records,
stopping early at the EOF record. -/
def readLines : HexState → List (List Nat) → Except String HexState
  | st, [] => Except.ok st
  | st, line :: rest =>
    match processLine st line with
    | Except.error e => Except.error e
    | Except.ok (false, st2) => Except.ok st2
    | Except.ok (true, st2) => readLines st2 rest

/-- `read_hex_file` from intelhex.py: run the line loop, require a checksum
record to have been seen (`if not device_checksum`), check the global
checksum — the 2-byte big-endian value must equal the sum over all program
blocks of (block byte sum mod 65536), mod 65536 — and return
`(blocks, security, device_checksum)`: the lists of program blocks and of
security chunks, and the checksum bytes. -/
def read_hex_file (lines : List (List Nat)) :
    Except String (List (List Nat) × List (List Nat) × List Nat) :=
  match readLines initState lines with
  | Except.error e => Except.error e
  | Except.ok st =>
    match st.device_checksum with
    | none => Except.error "Missing checksum data"
    | some cks =>
      if int_from_bytes cks ≠ (st.blocks.map fun b => b.sum % 65536).sum % 65536 then
        Except.error "Incorrect checksum"
      else Except.ok (st.blocks, st.security, cks)

/-- The checksum byte making a record body sum to 0 mod 256 (the claim's
"correct per-record checksums"). -/
def record_checksum_byte (body : List Nat) : Nat :=
  (256 - body.sum % 256) % 256

/-- One well-formed record: length byte, big-endian address, record type,
payload, correct checksum byte. -/
def genRecord (rtype addr : Nat) (payload : List Nat) : List Nat :=
  let body := payload.length :: addr / 256 :: addr % 256 :: rtype :: payload
  body ++ [record_checksum_byte body]

/-- The matching global checksum value for a list of program blocks. -/
def globalChecksum (blocks : List (List Nat)) : Nat :=
  (blocks.map fun b => b.sum % 65536).sum % 65536

/-- The sequential 64-byte-aligned program-data records starting at block
index `i`. -/
def genProgRecords (i : Nat) : List (List Nat) → List (List Nat)
  | [] => []
  | b :: rest => genRecord 0 (i * 64) b :: genProgRecords (i + 1) rest

/-- A well-formed 1-bank record stream in the sense of the claim: 128
sequential 64-byte program records with correct per-record checksums, an
extended-address record selecting the security region, one 64-byte security
record, an extended-address record selecting the checksum region, a matching
2-byte global checksum record, and the EOF record. -/
def genStream (blocks : List (List Nat)) (sec : List Nat) : List (List Nat) :=
  genProgRecords 0 blocks ++
    [genRecord 4 0 [0, 16], genRecord 0 0 sec, genRecord 4 0 [0, 32],
     genRecord 0 0 [globalChecksum blocks / 256, globalChecksum blocks % 256],
     genRecord 1 0 []]

end IntelHex

namespace IntelHex

lemma readLines_cons_cont {st st2 : HexState} {line : List Nat} {rest : List (List Nat)}
    (h : processLine st line = Except.ok (true, st2)) :
    readLines st (line :: rest) = readLines st2 rest := by
  rw [readLines, h]

lemma readLines_cons_break {st st2 : HexState} {line : List Nat} {rest : List (List Nat)}
    (h : processLine st line = Except.ok (false, st2)) :
    readLines st (line :: rest) = Except.ok st2 := by
  rw [readLines, h]

lemma genRecord_sum (rtype addr : Nat) (payload : List Nat) :
    (genRecord rtype addr payload).sum % 256 = 0 := by
  simp only [genRecord, record_checksum_byte, List.sum_append, List.sum_cons,
    List.sum_nil]
  omega

lemma genRecord_getD0 (rtype addr : Nat) (payload : List Nat) :
    (genRecord rtype addr payload).getD 0 0 = payload.length := rfl

lemma genRecord_getD3 (rtype addr : Nat) (payload : List Nat) :
    (genRecord rtype addr payload).getD 3 0 = rtype := rfl

lemma genRecord_addr (rtype addr : Nat) (payload : List Nat) (h : addr < 65536) :
    int_from_bytes (((genRecord rtype addr payload).drop 1).take 2) = addr := by
  show int_from_bytes [addr / 256, addr % 256] = addr
  simp only [int_from_bytes, List.foldl_cons, List.foldl_nil]
  omega

lemma genRecord_data (rtype addr : Nat) (payload : List Nat) :
    ((genRecord rtype addr payload).drop 4).dropLast = payload := by
  show (payload ++ [record_checksum_byte
    (payload.length :: addr / 256 :: addr % 256 :: rtype :: payload)]).dropLast = payload
  rw [List.dropLast_concat]

lemma processLine_prog (done : List (List Nat)) (b : List Nat)
    (hlenb : b.length = 64) (hdone : done.length < 128) :
    processLine ⟨done, [], none, 0, done.length, none⟩
        (genRecord 0 (done.length * 64) b) =
      Except.ok (true, ⟨done ++ [b], [], none, 0, done.length + 1, none⟩) := by
  have hsum := genRecord_sum 0 (done.length * 64) b
  have hdata := genRecord_data 0 (done.length * 64) b
  have e0 : ((genRecord 0 (done.length * 64) b)[0]?).getD 0 = b.length := by
    simp [genRecord]
  have e3 : ((genRecord 0 (done.length * 64) b)[3]?).getD 0 = 0 := by
    simp [genRecord]
  have ea : int_from_bytes (List.take 2 (genRecord 0 (done.length * 64) b).tail) =
      done.length * 64 := by
    rw [← List.drop_one]
    exact genRecord_addr 0 (done.length * 64) b (by omega)
  simp [processLine, hsum, hdata, e0, e3, ea, hlenb]

lemma sum_map_length (L : List (List Nat)) (h : ∀ b ∈ L, b.length = 64) :
    (L.map List.length).sum = 64 * L.length := by
  induction L with
  | nil => rfl
  | cons b bs ih =>
    rw [List.map_cons, List.sum_cons, h b (List.mem_cons_self b bs),
      ih (fun x hx => h x (List.mem_cons_of_mem b hx)), List.length_cons]
    ring

lemma readLines_genProg (blocks : List (List Nat)) :
    ∀ (done : List (List Nat)) (rest : List (List Nat)),
      (∀ b ∈ blocks, b.length = 64) →
      done.length + blocks.length ≤ 128 →
      readLines ⟨done, [], none, 0, done.length, none⟩
          (genProgRecords done.length blocks ++ rest) =
        readLines ⟨done ++ blocks, [], none, 0, done.length + blocks.length, none⟩ rest := by
  induction blocks with
  | nil =>
    intro done rest _ _
    simp [genProgRecords]
  | cons b bs ih =>
    intro done rest hlen hbound
    rw [genProgRecords, List.cons_append,
      readLines_cons_cont (processLine_prog done b (hlen b (List.mem_cons_self b bs))
        (by simp only [List.length_cons] at hbound; omega))]
    have h2 := ih (done ++ [b]) rest (fun x hx => hlen x (List.mem_cons_of_mem b hx))
      (by simp only [List.length_append, List.length_cons, List.length_nil] at hbound ⊢; omega)
    simp only [List.length_append, List.length_cons, List.length_nil, List.append_assoc,
      List.singleton_append] at h2
    have h3 : done.length + 1 + bs.length = done.length + (bs.length + 1) := by omega
    rw [h3] at h2
    simp only [List.length_cons]
    rw [show done.length + 0 + 1 = done.length + 1 from by omega] at h2
    exact h2

end IntelHex

/-- C9 (amended): a well-formed 1-bank record stream — 128 sequential
64-byte program records with correct per-record checksums, a 64-byte
security record, and a matching global checksum record — parses to
`(blocks, security, checksumBytes)` where `blocks` is the list of the 128
program records (8192 program bytes in total), `security` is a single
32-byte chunk (32 security bytes in total, not 64: only the first half of
the 64-byte record is kept for a 1-bank image), and `checksumBytes` has
exactly 2 bytes.  The components are lists of chunks, not concatenated byte
strings. -/
theorem c9_read_hex_file_one_bank (blocks : List (List Nat)) (sec : List Nat)
    (hb : blocks.length = 128)
    (hlen : ∀ b ∈ blocks, b.length = 64)
    (hs : sec.length = 64) :
    IntelHex.read_hex_file (IntelHex.genStream blocks sec) =
      Except.ok (blocks, [sec.take 32],
        [IntelHex.globalChecksum blocks / 256, IntelHex.globalChecksum blocks % 256]) ∧
    (blocks.map List.length).sum = 8192 ∧
    ([sec.take 32].map List.length).sum = 32 ∧
    [IntelHex.globalChecksum blocks / 256, IntelHex.globalChecksum blocks % 256].length
      = 2 := by
  have hA : IntelHex.processLine ⟨blocks, [], none, 0, 128, none⟩
      (IntelHex.genRecord 4 0 [0, 16]) =
      Except.ok (true, ⟨blocks, [], none, 16, 128, none⟩) := by
    simp [IntelHex.processLine, IntelHex.genRecord, IntelHex.record_checksum_byte,
      IntelHex.int_from_bytes]
  have hB : IntelHex.processLine ⟨blocks, [], none, 16, 128, none⟩
      (IntelHex.genRecord 0 0 sec) =
      Except.ok (true, ⟨blocks, [sec.take 32], none, 16, 128, some 1⟩) := by
    have hsum := IntelHex.genRecord_sum 0 0 sec
    have hdata := IntelHex.genRecord_data 0 0 sec
    have e0 : ((IntelHex.genRecord 0 0 sec)[0]?).getD 0 = sec.length := by
      simp [IntelHex.genRecord]
    have e3 : ((IntelHex.genRecord 0 0 sec)[3]?).getD 0 = 0 := by
      simp [IntelHex.genRecord]
    simp [IntelHex.processLine, hsum, hdata, e0, e3, hs, hb]
  have hC : IntelHex.processLine ⟨blocks, [sec.take 32], none, 16, 128, some 1⟩
      (IntelHex.genRecord 4 0 [0, 32]) =
      Except.ok (true, ⟨blocks, [sec.take 32], none, 32, 128, some 1⟩) := by
    simp [IntelHex.processLine, IntelHex.genRecord, IntelHex.record_checksum_byte,
      IntelHex.int_from_bytes]
  have hD : IntelHex.processLine ⟨blocks, [sec.take 32], none, 32, 128, some 1⟩
      (IntelHex.genRecord 0 0
        [IntelHex.globalChecksum blocks / 256, IntelHex.globalChecksum blocks % 256]) =
      Except.ok (true, ⟨blocks, [sec.take 32],
        some [IntelHex.globalChecksum blocks / 256, IntelHex.globalChecksum blocks % 256],
        32, 128, some 1⟩) := by
    have hsum := IntelHex.genRecord_sum 0 0
      [IntelHex.globalChecksum blocks / 256, IntelHex.globalChecksum blocks % 256]
    have hdata := IntelHex.genRecord_data 0 0
      [IntelHex.globalChecksum blocks / 256, IntelHex.globalChecksum blocks % 256]
    have e0 : ((IntelHex.genRecord 0 0
        [IntelHex.globalChecksum blocks / 256,
          IntelHex.globalChecksum blocks % 256])[0]?).getD 0 = 2 := by
      simp [IntelHex.genRecord]
    have e3 : ((IntelHex.genRecord 0 0
        [IntelHex.globalChecksum blocks / 256,
          IntelHex.globalChecksum blocks % 256])[3]?).getD 0 = 0 := by
      simp [IntelHex.genRecord]
    simp [IntelHex.processLine, hsum, hdata, e0, e3]
  have hE : IntelHex.processLine ⟨blocks, [sec.take 32],
      some [IntelHex.globalChecksum blocks / 256, IntelHex.globalChecksum blocks % 256],
      32, 128, some 1⟩ (IntelHex.genRecord 1 0 []) =
      Except.ok (false, ⟨blocks, [sec.take 32],
        some [IntelHex.globalChecksum blocks / 256, IntelHex.globalChecksum blocks % 256],
        32, 128, some 1⟩) := by
    simp [IntelHex.processLine, IntelHex.genRecord, IntelHex.record_checksum_byte]
  have h0 := IntelHex.readLines_genProg blocks []
    [IntelHex.genRecord 4 0 [0, 16], IntelHex.genRecord 0 0 sec,
     IntelHex.genRecord 4 0 [0, 32],
     IntelHex.genRecord 0 0
       [IntelHex.globalChecksum blocks / 256, IntelHex.globalChecksum blocks % 256],
     IntelHex.genRecord 1 0 []] hlen (by simp [hb])
  simp only [List.length_nil, List.nil_append, Nat.zero_add] at h0
  rw [hb] at h0
  have hrun : IntelHex.readLines IntelHex.initState (IntelHex.genStream blocks sec) =
      Except.ok ⟨blocks, [sec.take 32],
        some [IntelHex.globalChecksum blocks / 256, IntelHex.globalChecksum blocks % 256],
        32, 128, some 1⟩ := by
    rw [IntelHex.genStream,
      show IntelHex.initState = (⟨[], [], none, 0, 0, none⟩ : IntelHex.HexState) from rfl,
      h0, IntelHex.readLines_cons_cont hA, IntelHex.readLines_cons_cont hB,
      IntelHex.readLines_cons_cont hC, IntelHex.readLines_cons_cont hD,
      IntelHex.readLines_cons_break hE]
  have hg : IntelHex.globalChecksum blocks < 65536 := by
    rw [IntelHex.globalChecksum]
    omega
  have hfb : IntelHex.int_from_bytes
      [IntelHex.globalChecksum blocks / 256, IntelHex.globalChecksum blocks % 256] =
      IntelHex.globalChecksum blocks := by
    simp only [IntelHex.int_from_bytes, List.foldl_cons, List.foldl_nil]
    omega
  have hcond : ¬ (IntelHex.int_from_bytes
      [IntelHex.globalChecksum blocks / 256, IntelHex.globalChecksum blocks % 256] ≠
      (blocks.map fun b => b.sum % 65536).sum % 65536) := by
    rw [hfb]
    exact fun hc => hc rfl
  refine ⟨?_, ?_, ?_, rfl⟩
  · rw [IntelHex.read_hex_file, hrun]
    show (if IntelHex.int_from_bytes
          [IntelHex.globalChecksum blocks / 256, IntelHex.globalChecksum blocks % 256] ≠
          (blocks.map fun b => b.sum % 65536).sum % 65536 then
        Except.error "Incorrect checksum"
      else Except.ok (blocks, [sec.take 32],
        [IntelHex.globalChecksum blocks / 256, IntelHex.globalChecksum blocks % 256])) =
      Except.ok (blocks, [sec.take 32],
        [IntelHex.globalChecksum blocks / 256, IntelHex.globalChecksum blocks % 256])
    rw [if_neg hcond]
  · rw [IntelHex.sum_map_length blocks hlen, hb]
  · simp [List.length_take, hs]

/-- Decidable equality for `Except`, by cases on the two constructors. -/
instance {e a : Type} [DecidableEq e] [DecidableEq a] : DecidableEq (Except e a) :=
  fun x y =>
    match x, y with
    | Except.ok u, Except.ok v =>
      if h : u = v then isTrue (by rw [h]) else isFalse (fun hc => h (Except.ok.inj hc))
    | Except.error u, Except.error v =>
      if h : u = v then isTrue (by rw [h]) else isFalse (fun hc => h (Except.error.inj hc))
    | Except.ok _, Except.error _ => isFalse (fun hc => Except.noConfusion hc)
    | Except.error _, Except.ok _ => isFalse (fun hc => Except.noConfusion hc)

set_option maxRecDepth 1000000 in
/-- C9 counterexample: on a concrete well-formed 1-bank stream (128 all-zero
64-byte program records, one all-zero 64-byte security record, matching
checksums), `read_hex_file` returns the security component as a single
32-byte chunk: its total byte count is 32, not 64 (and as a list it has 1
element, not 64), so the claimed `len(securityData) == 64` is false.  The
program component is likewise a 128-element list of blocks, not one
8192-byte sequence. -/
theorem c9_counterexample :
    IntelHex.read_hex_file
        (IntelHex.genStream (List.replicate 128 (List.replicate 64 0))
          (List.replicate 64 0)) =
      Except.ok (List.replicate 128 (List.replicate 64 0),
        [List.replicate 32 0], [0, 0]) ∧
    ([List.replicate 32 (0 : Nat)].map List.length).sum = 32 ∧
    ([List.replicate 32 (0 : Nat)].map List.length).sum ≠ 64 ∧
    ([List.replicate 32 (0 : Nat)] : List (List Nat)).length ≠ 64 := by
  decide

set_option maxRecDepth 1000000 in
/-- Witness for C9 at the all-zero 1-bank image. -/
theorem c9_read_hex_file_one_bank_witness :
    ((List.replicate 128 (List.replicate 64 (0 : Nat))).length = 128 ∧
     (∀ b ∈ List.replicate 128 (List.replicate 64 (0 : Nat)), b.length = 64) ∧
     (List.replicate 64 (0 : Nat)).length = 64) ∧
    (IntelHex.read_hex_file
        (IntelHex.genStream (List.replicate 128 (List.replicate 64 0))
          (List.replicate 64 0)) =
      Except.ok (List.replicate 128 (List.replicate 64 0),
        [(List.replicate 64 (0 : Nat)).take 32],
        [IntelHex.globalChecksum (List.replicate 128 (List.replicate 64 0)) / 256,
         IntelHex.globalChecksum (List.replicate 128 (List.replicate 64 0)) % 256]) ∧
     ((List.replicate 128 (List.replicate 64 (0 : Nat))).map List.length).sum = 8192 ∧
     ([(List.replicate 64 (0 : Nat)).take 32].map List.length).sum = 32 ∧
     [IntelHex.globalChecksum (List.replicate 128 (List.replicate 64 0)) / 256,
      IntelHex.globalChecksum (List.replicate 128 (List.replicate 64 0)) % 256].length
       = 2) :=
  ⟨⟨by decide, by decide, by decide⟩,
    c9_read_hex_file_one_bank (List.replicate 128 (List.replicate 64 0))
      (List.replicate 64 0) (by decide) (by decide) (by decide)⟩
